import Mathlib

/-!
# Verification of the gateway supervisor in `apps/windows/main.cjs`

Shallow embedding of the gateway process supervisor: configuration
bootstrap (`ensureGatewayConfig`), token generation (`generateToken`),
child-process start/stop and event handling (`startGateway`,
`handleGatewayEvent`, `stopGateway`), control-UI URL construction
(`buildControlUiUrl`), and the bounded UI-load retry policy
(`didFailLoad`).

Modelling conventions:
* File-system state is passed explicitly: the persisted config file is an
  `Option FileContent` (absent, unparsable, or parsed JSON shape).
* `crypto.randomBytes(24)` is modelled by an explicit list of 24 byte
  values handed to `generateToken`.
* Module-level mutable variables (`gatewayProcess`, `gatewayToken`, ...)
  become fields of explicit state structures threaded through the
  functions.
* Log writes are returned as lists of `LogEntry` values.
* All functions are total: paths of the source that cannot throw are
  modelled directly, and the one guarded `try`/`catch` (JSON parsing)
  is modelled by the `FileContent.invalid` case.
-/

namespace Moltbot

/-! ## JavaScript string trimming

`String.prototype.trim` removes leading and trailing whitespace.  It is
modelled over the character list of the string. -/

def isJsWhitespace (c : Char) : Bool :=
  c = ' ' || c = '\t' || c = '\n' || c = '\r' || c = '\x0b' || c = '\x0c'

def jsTrimList (l : List Char) : List Char :=
  ((l.dropWhile isJsWhitespace).reverse.dropWhile isJsWhitespace).reverse

def jsTrim (s : String) : String :=
  ⟨jsTrimList s.data⟩

/-- `String.prototype.startsWith`, over the character lists. -/
def jsStartsWith (s pre : String) : Bool :=
  pre.data.isPrefixOf s.data

/-! ## Token generation (`generateToken`, main.cjs lines 35-37)

`crypto.randomBytes(24).toString("hex")`: 24 random bytes rendered as
lowercase hexadecimal.  The random bytes are an explicit argument. -/

def lowerHexChars : List Char :=
  "0123456789abcdef".data

def isLowerHexDigit (c : Char) : Bool :=
  lowerHexChars.contains c

def hexDigitChar (n : Nat) : Char :=
  if n < 10 then Char.ofNat (48 + n) else Char.ofNat (87 + n)

def byteToHex (b : Nat) : List Char :=
  [hexDigitChar (b / 16), hexDigitChar (b % 16)]

def generateToken (entropy : List Nat) : String :=
  ⟨entropy.flatMap byteToHex⟩

/-! ## Gateway config (`buildMinimalGatewayConfig`, lines 39-55)

The JSON document written to disk, flattened into a structure. -/

def gatewayPort : Nat := 18789

structure GatewayConfig where
  mode : String
  bind : String
  port : Nat
  authMode : String
  token : String
  controlUiEnabled : Bool
  allowInsecureAuth : Bool
  deriving DecidableEq, Repr

def buildMinimalGatewayConfig (token : String) : GatewayConfig :=
  { mode := "local"
    bind := "loopback"
    port := gatewayPort
    authMode := "token"
    token := token
    controlUiEnabled := true
    allowInsecureAuth := true }

/-! ## Persisted config file (`ensureGatewayConfig`, lines 57-85)

A file on disk either fails `JSON.parse` (`invalid`, carrying the error
text used in the warning log) or parses to a JSON value.  Of a parsed
value the code inspects only `gateway.auth.token` (present-and-a-string
or not) — `gateway.port` is recorded in the model only to show that the
code never reads it. -/

structure StoredJson where
  tokenField : Option String
  portField : Option Nat
  deriving DecidableEq, Repr

inductive FileContent where
  | invalid (err : String)
  | valid (json : StoredJson)
  deriving DecidableEq, Repr

structure LogEntry where
  level : String
  msg : String
  deriving DecidableEq, Repr

/-- Lines 62-79: the token extracted from an existing config file.
`typeof token === "string" && token.trim() ? token.trim() : ""`. -/
def extractExistingToken (file : Option FileContent) : String :=
  match file with
  | none => ""
  | some (.invalid _) => ""
  | some (.valid json) =>
    match json.tokenField with
    | none => ""
    | some t => if jsTrim t ≠ "" then jsTrim t else ""

structure EnsureResult where
  configPath : String
  token : String
  written : GatewayConfig
  logs : List LogEntry
  deriving DecidableEq, Repr

/-- Lines 57-85.  `fresh` stands for the `generateToken()` call used when
no valid token exists (`gatewayToken = existingToken || generateToken()`).
The function is total: a parse failure only adds a warning log entry. -/
def ensureGatewayConfig (stateDir : String) (file : Option FileContent)
    (fresh : String) : EnsureResult :=
  let configPath := stateDir ++ "/openclaw.json"
  let warnLogs : List LogEntry :=
    match file with
    | some (.invalid err) =>
      [⟨"warn", "Failed to parse config, regenerating: " ++ err⟩]
    | _ => []
  let existingToken := extractExistingToken file
  let token := if existingToken ≠ "" then existingToken else fresh
  { configPath := configPath
    token := token
    written := buildMinimalGatewayConfig token
    logs := warnLogs ++ [⟨"info", "Wrote gateway config: " ++ configPath⟩] }

/-- Reading back the file written by `ensureGatewayConfig` (JSON
round-trip of line 83): the token and port fields hold exactly the
written values. -/
def configToFile (c : GatewayConfig) : FileContent :=
  .valid ⟨some c.token, some c.port⟩

/-! ## Process supervisor (`startGateway`, lines 87-149)

The module-level mutable variables read or written by `startGateway`
become the fields of `SupState`; the live child process object is the
`gatewayProcess : Option Unit` ownership token.  A `spawn` call is
reified as the `SpawnSpec` value it would be invoked with. -/

structure SupState where
  gatewayProcess : Option Unit
  gatewayToken : String
  gatewayStateDir : String
  gatewayConfigPath : String
  deriving DecidableEq, Repr

structure SpawnSpec where
  exe : String
  args : List String
  cwd : String
  env : List (String × String)
  deriving DecidableEq, Repr

/-- Lines 96-127: the exact spawn invocation.  `execPath` stands for the
ambient `process.execPath`. -/
def gatewaySpawnSpec (execPath rootDir : String) (st : SupState) : SpawnSpec :=
  let entryPath := rootDir ++ "/openclaw.mjs"
  { exe := execPath
    args := [entryPath, "gateway", "--allow-unconfigured", "--auth", "token",
      "--token", st.gatewayToken, "--port", toString gatewayPort,
      "--bind", "loopback"]
    cwd := rootDir
    env := [("ELECTRON_RUN_AS_NODE", "1"),
      ("OPENCLAW_NO_RESPAWN", "1"),
      ("OPENCLAW_SKIP_CHANNELS", "1"),
      ("OPENCLAW_SKIP_RUNTIME_GUARD", "1"),
      ("OPENCLAW_STATE_DIR", st.gatewayStateDir),
      ("OPENCLAW_CONFIG_PATH", st.gatewayConfigPath),
      ("OPENCLAW_GATEWAY_TOKEN", st.gatewayToken),
      ("NODE_ENV", "production")] }

/-- Lines 87-127: `if (gatewayProcess) return;` guards the whole body, so
a live handle means no log write, no spawn and no state change.
Otherwise the handle is taken and exactly one spawn is issued. -/
def startGateway (execPath rootDir : String) (st : SupState) :
    SupState × Option SpawnSpec × List LogEntry :=
  if st.gatewayProcess.isSome then
    (st, none, [])
  else
    let entryPath := rootDir ++ "/openclaw.mjs"
    ({ st with gatewayProcess := some () },
     some (gatewaySpawnSpec execPath rootDir st),
     [⟨"info", "Starting gateway via Electron-as-Node: " ++ entryPath⟩,
      ⟨"info", "Gateway config: " ++ st.gatewayConfigPath⟩])

/-- Events delivered by the child process to the handlers installed at
lines 129-148.  `exited` carries the nullable exit code and signal;
`errored` carries the formatted diagnostic
(`err && err.stack ? err.stack : String(err)`). -/
inductive GwEvent where
  | stdoutData (data : String)
  | stderrData (data : String)
  | exited (code : Option Int) (signal : Option String)
  | errored (err : String)
  deriving DecidableEq, Repr

/-- `code ?? "null"` / `signal ?? "null"`. -/
def showNullable {α : Type} [ToString α] : Option α → String
  | some a => toString a
  | none => "null"

/-- Lines 129-148: the stdout/stderr/exit/error handlers.  The third
component records any spawn the handler performs: the source handlers
never call `spawn`, so it is `none` in every case (no automatic
re-spawn).  The handlers never throw, so a spawn error cannot crash the
supervising process. -/
def handleGatewayEvent (st : SupState) (e : GwEvent) :
    SupState × List LogEntry × Option SpawnSpec :=
  match e with
  | .stdoutData d => (st, [⟨"info", "gateway stdout: " ++ jsTrim d⟩], none)
  | .stderrData d => (st, [⟨"error", "gateway stderr: " ++ jsTrim d⟩], none)
  | .exited code signal =>
    ({ st with gatewayProcess := none },
     [⟨"error", "gateway exited: code=" ++ showNullable code
        ++ " signal=" ++ showNullable signal⟩], none)
  | .errored err =>
    ({ st with gatewayProcess := none },
     [⟨"error", "gateway spawn error: " ++ err⟩], none)

/-- Lines 211-215: the `app.on("quit")` handler, the supervisor-initiated
termination.  The boolean records whether `gatewayProcess.kill()` was
called.  Note the handler does not assign `gatewayProcess = null`. -/
def stopGateway (st : SupState) : SupState × Bool :=
  if st.gatewayProcess.isSome then (st, true) else (st, false)

/-! ## Control-UI URL (`buildControlUiUrl`, lines 151-155)

`new URLSearchParams({ token }).toString()` serialises with
`application/x-www-form-urlencoded`: ASCII alphanumerics and `*-._` are
kept, a space becomes `+`, every other character is percent-encoded
byte-wise from its UTF-8 encoding with uppercase hex digits. -/

def utf8Bytes (c : Char) : List Nat :=
  let n := c.toNat
  if n < 0x80 then [n]
  else if n < 0x800 then [0xC0 + n / 0x40, 0x80 + n % 0x40]
  else if n < 0x10000 then
    [0xE0 + n / 0x1000, 0x80 + (n / 0x40) % 0x40, 0x80 + n % 0x40]
  else
    [0xF0 + n / 0x40000, 0x80 + (n / 0x1000) % 0x40,
     0x80 + (n / 0x40) % 0x40, 0x80 + n % 0x40]

def isFormUnreserved (c : Char) : Bool :=
  c.isAlphanum || c = '*' || c = '-' || c = '.' || c = '_'

def upperHexDigit (n : Nat) : Char :=
  if n < 10 then Char.ofNat (48 + n) else Char.ofNat (55 + n)

def percentByte (b : Nat) : List Char :=
  ['%', upperHexDigit (b / 16), upperHexDigit (b % 16)]

def formEncodeChar (c : Char) : List Char :=
  if isFormUnreserved c then [c]
  else if c = ' ' then ['+']
  else (utf8Bytes c).flatMap percentByte

def formUrlEncode (s : String) : String :=
  ⟨s.data.flatMap formEncodeChar⟩

/-- Lines 151-155. -/
def buildControlUiUrl (token : String) : String :=
  let baseUrl := "http://127.0.0.1:" ++ toString gatewayPort ++ "/"
  let params := "token=" ++ formUrlEncode token
  baseUrl ++ "?" ++ params

/-! ## UI attachment retry (`did-fail-load` handler, lines 175-189) -/

def loopbackPrefix : String := "http://127.0.0.1"

structure UiState where
  uiRetries : Nat
  mainWindow : Bool
  controlUiUrl : String
  deriving DecidableEq, Repr

structure FailLoadStep where
  state : UiState
  log : LogEntry
  retryDelay : Option Nat
  deriving DecidableEq, Repr

/-- Lines 175-189: one `did-fail-load` event.  A retry (a `setTimeout` of
500 ms that reloads `controlUiUrl`) is scheduled only when the failing
URL is truthy, starts with `http://127.0.0.1`, and fewer than 20 retries
have been used; `retryDelay` is its delay when scheduled. -/
def didFailLoad (st : UiState) (errorCode : Int) (errorDescription : String)
    (validatedURL : String) : FailLoadStep :=
  let log : LogEntry :=
    ⟨"error", "UI failed to load: " ++ toString errorCode ++ " "
      ++ errorDescription ++ " " ++ validatedURL⟩
  if validatedURL ≠ "" ∧ jsStartsWith validatedURL loopbackPrefix = true
      ∧ st.uiRetries < 20 then
    { state := { st with uiRetries := st.uiRetries + 1 }
      log := log
      retryDelay := some 500 }
  else
    { state := st, log := log, retryDelay := none }

/-- A run of `n` consecutive load failures with the same failing URL;
returns the final state and, in order, the retry delay scheduled (or
not) for each failure. -/
def simFailLoads (errorCode : Int) (errorDescription validatedURL : String) :
    Nat → UiState → UiState × List (Option Nat)
  | 0, st => (st, [])
  | n + 1, st =>
    let step := didFailLoad st errorCode errorDescription validatedURL
    let rest := simFailLoads errorCode errorDescription validatedURL n step.state
    (rest.1, step.retryDelay :: rest.2)

/-! ## One bootstrap-and-start cycle (`createWindow`, lines 157-201)

Lines 191-196 in order: `ensureGatewayConfig`, `startGateway`, then
`controlUiUrl = buildControlUiUrl()` and the initial `loadURL`. -/

structure BootResult where
  ensure : EnsureResult
  supState : SupState
  spawn : Option SpawnSpec
  url : String
  deriving DecidableEq, Repr

def bootCycle (stateDir execPath rootDir : String) (file : Option FileContent)
    (fresh : String) : BootResult :=
  let er := ensureGatewayConfig stateDir file fresh
  let st0 : SupState :=
    { gatewayProcess := none
      gatewayToken := er.token
      gatewayStateDir := stateDir
      gatewayConfigPath := er.configPath }
  let started := startGateway execPath rootDir st0
  { ensure := er
    supState := started.1
    spawn := started.2.1
    url := buildControlUiUrl er.token }

/-! ## Helper lemmas: trimming -/

theorem dropWhile_idem {α : Type} (p : α → Bool) (l : List α) :
    (l.dropWhile p).dropWhile p = l.dropWhile p := by
  induction l with
  | nil => rfl
  | cons a t ih =>
    by_cases h : p a = true
    · simp [List.dropWhile_cons, h, ih]
    · simp [List.dropWhile_cons, h]

theorem head?_dropWhile_false {α : Type} (p : α → Bool) (l : List α) (a : α)
    (h : (l.dropWhile p).head? = some a) : p a = false := by
  induction l with
  | nil => simp [List.dropWhile] at h
  | cons b t ih =>
    by_cases hb : p b = true
    · rw [List.dropWhile_cons, if_pos hb] at h
      exact ih h
    · rw [List.dropWhile_cons, if_neg hb] at h
      simp at h
      rw [← h]
      simpa using hb

theorem getLast?_dropWhile {α : Type} (p : α → Bool) (l : List α)
    (h : l.dropWhile p ≠ []) : (l.dropWhile p).getLast? = l.getLast? := by
  induction l with
  | nil => simp [List.dropWhile] at h
  | cons b t ih =>
    by_cases hb : p b = true
    · rw [List.dropWhile_cons, if_pos hb] at h ⊢
      have ht : t ≠ [] := by
        intro he
        rw [he] at h
        simp [List.dropWhile] at h
      rw [ih h]
      match t, ht with
      | c :: u, _ => rw [List.getLast?_cons_cons]
    · rw [List.dropWhile_cons, if_neg hb]

theorem dropWhile_of_head? {α : Type} (p : α → Bool) (l : List α) (a : α)
    (h : l.head? = some a) (hp : p a = false) : l.dropWhile p = l := by
  match l with
  | [] => rfl
  | b :: t =>
    simp at h
    rw [List.dropWhile_cons, if_neg (by rw [h]; simp [hp])]

theorem dropWhile_of_all_false {α : Type} (p : α → Bool) (l : List α)
    (h : ∀ a ∈ l, p a = false) : l.dropWhile p = l := by
  match l with
  | [] => rfl
  | b :: t =>
    rw [List.dropWhile_cons, if_neg (by simp [h b (by simp)])]

theorem jsTrimList_idem (l : List Char) :
    jsTrimList (jsTrimList l) = jsTrimList l := by
  unfold jsTrimList
  set X := l.dropWhile isJsWhitespace with hX
  set Y := X.reverse.dropWhile isJsWhitespace with hY
  have h1 : Y.reverse.dropWhile isJsWhitespace = Y.reverse := by
    cases hYr : Y.reverse.head? with
    | none =>
      have he : Y.reverse = [] := by simpa using hYr
      rw [he]
      rfl
    | some a =>
      refine dropWhile_of_head? _ _ a hYr ?_
      have hg : Y.getLast? = some a := by
        rw [← List.head?_reverse]
        exact hYr
      have hne : Y ≠ [] := by
        intro he
        rw [he] at hg
        simp at hg
      rw [hY, getLast?_dropWhile _ _ (hY ▸ hne), List.getLast?_reverse] at hg
      exact head?_dropWhile_false _ _ _ hg
  rw [h1, List.reverse_reverse, hY, dropWhile_idem]

theorem jsTrim_idem (s : String) : jsTrim (jsTrim s) = jsTrim s :=
  congrArg String.mk (jsTrimList_idem s.data)

theorem jsTrimList_of_all (l : List Char)
    (h : ∀ a ∈ l, isJsWhitespace a = false) : jsTrimList l = l := by
  unfold jsTrimList
  rw [dropWhile_of_all_false _ _ h,
    dropWhile_of_all_false _ _ (fun a ha => h a (by simpa using ha)),
    List.reverse_reverse]

/-! ## Helper lemmas: hex tokens -/

theorem mem_of_isLowerHexDigit (c : Char) (h : isLowerHexDigit c = true) :
    c ∈ lowerHexChars := by
  rw [isLowerHexDigit] at h
  exact List.elem_iff.mp h

theorem hexDigitChar_isLowerHex : ∀ n, n < 16 → isLowerHexDigit (hexDigitChar n) = true := by
  decide

theorem byteToHex_all_hex (b : Nat) (h : b < 256) :
    ∀ c ∈ byteToHex b, isLowerHexDigit c = true := by
  intro c hc
  rw [byteToHex] at hc
  simp at hc
  rcases hc with rfl | rfl
  · exact hexDigitChar_isLowerHex _ (by omega)
  · exact hexDigitChar_isLowerHex _ (Nat.mod_lt _ (by omega))

theorem flatMap_byteToHex_length (e : List Nat) :
    (e.flatMap byteToHex).length = 2 * e.length := by
  induction e with
  | nil => rfl
  | cons b t ih =>
    rw [List.flatMap_cons, List.length_append, ih]
    simp [byteToHex]
    omega

theorem generateToken_length (e : List Nat) (h : e.length = 24) :
    (generateToken e).length = 48 := by
  show (e.flatMap byteToHex).length = 48
  rw [flatMap_byteToHex_length, h]

theorem generateToken_all_hex (e : List Nat) (h : ∀ b ∈ e, b < 256) :
    ∀ c ∈ (generateToken e).data, isLowerHexDigit c = true := by
  intro c hc
  have hc' : c ∈ e.flatMap byteToHex := hc
  rw [List.mem_flatMap] at hc'
  obtain ⟨b, hb, hcb⟩ := hc'
  exact byteToHex_all_hex b (h b hb) c hcb

theorem hex_not_whitespace (c : Char) (h : isLowerHexDigit c = true) :
    isJsWhitespace c = false := by
  have hall : ∀ x ∈ lowerHexChars, isJsWhitespace x = false := by decide
  exact hall c (mem_of_isLowerHexDigit c h)

theorem jsTrim_generateToken (e : List Nat) (h : ∀ b ∈ e, b < 256) :
    jsTrim (generateToken e) = generateToken e :=
  congrArg String.mk
    (jsTrimList_of_all _ (fun a ha => hex_not_whitespace a (generateToken_all_hex e h a ha)))

theorem generateToken_ne_empty (e : List Nat) (h : e.length = 24) :
    generateToken e ≠ "" := by
  intro h0
  have := generateToken_length e h
  rw [h0] at this
  simp at this

theorem formEncodeChar_hex (c : Char) (h : isLowerHexDigit c = true) :
    formEncodeChar c = [c] := by
  have hall : ∀ x ∈ lowerHexChars, formEncodeChar x = [x] := by decide
  exact hall c (mem_of_isLowerHexDigit c h)

theorem flatMap_singleton_of_all {α : Type} (f : α → List α) (l : List α)
    (h : ∀ a ∈ l, f a = [a]) : l.flatMap f = l := by
  induction l with
  | nil => rfl
  | cons a t ih =>
    rw [List.flatMap_cons, h a (by simp), ih (fun a ha => h a (by simp [ha]))]
    rfl

theorem formUrlEncode_hex (s : String)
    (h : ∀ c ∈ s.data, isLowerHexDigit c = true) : formUrlEncode s = s := by
  show String.mk (s.data.flatMap formEncodeChar) = s
  rw [flatMap_singleton_of_all _ _ (fun c hc => formEncodeChar_hex c (h c hc))]

theorem jsTrim_extractExistingToken (file : Option FileContent) :
    jsTrim (extractExistingToken file) = extractExistingToken file := by
  match file with
  | none => rfl
  | some (.invalid _) => rfl
  | some (.valid ⟨none, portF⟩) => rfl
  | some (.valid ⟨some t, portF⟩) =>
    show jsTrim (if jsTrim t ≠ "" then jsTrim t else "")
      = (if jsTrim t ≠ "" then jsTrim t else "")
    by_cases h : jsTrim t = ""
    · simp [h]
      rfl
    · simp [h]
      exact jsTrim_idem t

/-! ## Helper lemmas: retry policy -/

theorem didFailLoad_loopback_lt (st : UiState) (code : Int) (desc url : String)
    (hne : url ≠ "") (hpre : jsStartsWith url loopbackPrefix = true)
    (hlt : st.uiRetries < 20) :
    didFailLoad st code desc url =
      { state := { st with uiRetries := st.uiRetries + 1 }
        log := ⟨"error", "UI failed to load: " ++ toString code ++ " "
          ++ desc ++ " " ++ url⟩
        retryDelay := some 500 } := by
  rw [didFailLoad, if_pos ⟨hne, hpre, hlt⟩]

theorem didFailLoad_exhausted (st : UiState) (code : Int) (desc url : String)
    (hge : ¬ st.uiRetries < 20) :
    didFailLoad st code desc url =
      { state := st
        log := ⟨"error", "UI failed to load: " ++ toString code ++ " "
          ++ desc ++ " " ++ url⟩
        retryDelay := none } := by
  rw [didFailLoad, if_neg (fun hc => hge hc.2.2)]

theorem simFailLoads_spec (code : Int) (desc url : String)
    (hne : url ≠ "") (hpre : jsStartsWith url loopbackPrefix = true) :
    ∀ (n : Nat) (st : UiState), st.uiRetries ≤ 20 →
      (simFailLoads code desc url n st).1.uiRetries = min (st.uiRetries + n) 20 ∧
      (simFailLoads code desc url n st).2 =
        List.replicate (min (st.uiRetries + n) 20 - st.uiRetries) (some 500)
          ++ List.replicate (n - (min (st.uiRetries + n) 20 - st.uiRetries)) none := by
  intro n
  induction n with
  | zero =>
    intro st h
    have h1 : min (st.uiRetries + 0) 20 = st.uiRetries := by omega
    rw [h1]
    simp [simFailLoads]
  | succ n ih =>
    intro st h
    by_cases hlt : st.uiRetries < 20
    · have hstep := didFailLoad_loopback_lt st code desc url hne hpre hlt
      obtain ⟨ih1, ih2⟩ := ih { st with uiRetries := st.uiRetries + 1 }
        (by show st.uiRetries + 1 ≤ 20; omega)
      dsimp at ih1 ih2
      constructor
      · show (simFailLoads code desc url n
          (didFailLoad st code desc url).state).1.uiRetries = _
        rw [hstep]
        dsimp
        rw [ih1]
        omega
      · show (didFailLoad st code desc url).retryDelay
          :: (simFailLoads code desc url n (didFailLoad st code desc url).state).2 = _
        rw [hstep]
        dsimp
        rw [ih2]
        have hB : (n + 1) - (min (st.uiRetries + (n + 1)) 20 - st.uiRetries)
            = n - (min (st.uiRetries + 1 + n) 20 - (st.uiRetries + 1)) := by omega
        rw [hB]
        have hA : min (st.uiRetries + (n + 1)) 20 - st.uiRetries
            = (min (st.uiRetries + 1 + n) 20 - (st.uiRetries + 1)) + 1 := by omega
        rw [hA, List.replicate_succ]
        rfl
    · have hstep := didFailLoad_exhausted st code desc url hlt
      have h20 : st.uiRetries = 20 := by omega
      obtain ⟨ih1, ih2⟩ := ih st h
      constructor
      · show (simFailLoads code desc url n
          (didFailLoad st code desc url).state).1.uiRetries = _
        rw [hstep]
        dsimp
        rw [ih1]
        omega
      · show (didFailLoad st code desc url).retryDelay
          :: (simFailLoads code desc url n (didFailLoad st code desc url).state).2 = _
        rw [hstep]
        dsimp
        rw [ih2]
        have hA : min (st.uiRetries + n) 20 - st.uiRetries = 0 := by omega
        have hA' : min (st.uiRetries + (n + 1)) 20 - st.uiRetries = 0 := by omega
        rw [hA, hA']
        simp [List.replicate_succ]

theorem filterMap_id_replicate_some {α : Type} (k : Nat) (x : α) :
    (List.replicate k (some x)).filterMap id = List.replicate k x := by
  induction k with
  | zero => rfl
  | succ k ih =>
    rw [List.replicate_succ, List.replicate_succ, List.filterMap_cons, ih]
    rfl

theorem filterMap_id_replicate_none {α : Type} (k : Nat) :
    (List.replicate k (none : Option α)).filterMap id = [] := by
  induction k with
  | zero => rfl
  | succ k ih =>
    rw [List.replicate_succ, List.filterMap_cons, ih]
    rfl

/-! ## Claim theorems -/

/-- C2: if a ProcessHandle is already live, `startGateway` performs no
second spawn, writes no log and makes no state change: start is a no-op
unless the handle is absent, so at most one child process is live at a
time. -/
theorem claim2_start_noop_when_live (execPath rootDir : String) (st : SupState)
    (h : st.gatewayProcess.isSome = true) :
    startGateway execPath rootDir st = (st, none, []) := by
  rw [startGateway, if_pos h]

/-- C2 witness: a concrete live state on which start is a no-op. -/
theorem claim2_witness :
    (SupState.mk (some ()) "tok" "sd" "cp").gatewayProcess.isSome = true ∧
    startGateway "exe" "root" (SupState.mk (some ()) "tok" "sd" "cp")
      = (SupState.mk (some ()) "tok" "sd" "cp", none, []) :=
  ⟨by decide, claim2_start_noop_when_live "exe" "root" _ (by decide)⟩

/-- C4: a load failure whose URL does not start with the loopback prefix
schedules no retry and leaves the retry state unchanged. -/
theorem claim4_nonloopback_no_retry (st : UiState) (code : Int)
    (desc url : String) (hpre : jsStartsWith url loopbackPrefix = false) :
    (didFailLoad st code desc url).state = st ∧
    (didFailLoad st code desc url).retryDelay = none := by
  have hstep : didFailLoad st code desc url =
      { state := st
        log := ⟨"error", "UI failed to load: " ++ toString code ++ " "
          ++ desc ++ " " ++ url⟩
        retryDelay := none } := by
    rw [didFailLoad, if_neg]
    intro hc
    simp [hpre] at hc
  rw [hstep]
  exact ⟨rfl, rfl⟩

/-- C4 witness: a concrete non-loopback failure schedules no retry. -/
theorem claim4_witness :
    jsStartsWith "https://example.com/" loopbackPrefix = false ∧
    ((didFailLoad ⟨3, true, "u"⟩ (-6) "ERR_CONNECTION_REFUSED"
        "https://example.com/").state = ⟨3, true, "u"⟩ ∧
      (didFailLoad ⟨3, true, "u"⟩ (-6) "ERR_CONNECTION_REFUSED"
        "https://example.com/").retryDelay = none) :=
  ⟨by decide, claim4_nonloopback_no_retry _ _ _ _ (by decide)⟩

/-- C5: a config file whose content fails to parse is handled fail-soft:
the bootstrap logs a warning, generates a fresh token, writes the full
canonical config, and returns a result (the function is total, so no
error is raised). -/
theorem claim5_invalid_config_recovery (stateDir errText fresh : String) :
    (ensureGatewayConfig stateDir (some (.invalid errText)) fresh).token = fresh ∧
    (ensureGatewayConfig stateDir (some (.invalid errText)) fresh).written
      = buildMinimalGatewayConfig fresh ∧
    (ensureGatewayConfig stateDir (some (.invalid errText)) fresh).logs
      = [⟨"warn", "Failed to parse config, regenerating: " ++ errText⟩,
         ⟨"info", "Wrote gateway config: " ++ (stateDir ++ "/openclaw.json")⟩] ∧
    configToFile (ensureGatewayConfig stateDir (some (.invalid errText)) fresh).written
      = .valid ⟨some fresh, some gatewayPort⟩ :=
  ⟨rfl, rfl, rfl, rfl⟩

/-- C6: with no valid existing token, the generated token renders 24
bytes of entropy as a 48-character string of lowercase hexadecimal
digits.  The byte list models the output of the secure random source
`crypto.randomBytes(24)`. -/
theorem claim6_token_hex48 (e : List Nat) (hlen : e.length = 24)
    (hb : ∀ b ∈ e, b < 256) :
    (generateToken e).length = 48 ∧
    (generateToken e).data.all isLowerHexDigit = true := by
  refine ⟨generateToken_length e hlen, ?_⟩
  rw [List.all_eq_true]
  intro c hc
  exact generateToken_all_hex e hb c hc

/-- C6 witness: a concrete 24-byte entropy input. -/
theorem claim6_witness :
    (List.replicate 24 171).length = 24 ∧
    (∀ b ∈ List.replicate 24 171, b < 256) ∧
    ((generateToken (List.replicate 24 171)).length = 48 ∧
      (generateToken (List.replicate 24 171)).data.all isLowerHexDigit = true) :=
  ⟨by decide, by decide, claim6_token_hex48 _ (by decide) (by decide)⟩

/-- C8: on child exit the supervisor logs the nullable exit code and
signal and clears the handle; on spawn error it logs the diagnostic and
clears the handle; neither handler issues a spawn (no automatic
re-spawn), both are total (never crash the supervising process), and a
subsequent start call spawns again. -/
theorem claim8_exit_error_handling (st : SupState) (code : Option Int)
    (signal : Option String) (err execPath rootDir : String) :
    (handleGatewayEvent st (.exited code signal)).1.gatewayProcess = none ∧
    (handleGatewayEvent st (.exited code signal)).2.1
      = [⟨"error", "gateway exited: code=" ++ showNullable code
          ++ " signal=" ++ showNullable signal⟩] ∧
    (handleGatewayEvent st (.exited code signal)).2.2 = none ∧
    (handleGatewayEvent st (.errored err)).1.gatewayProcess = none ∧
    (handleGatewayEvent st (.errored err)).2.1
      = [⟨"error", "gateway spawn error: " ++ err⟩] ∧
    (handleGatewayEvent st (.errored err)).2.2 = none ∧
    (startGateway execPath rootDir
      (handleGatewayEvent st (.exited code signal)).1).2.1.isSome = true ∧
    (startGateway execPath rootDir
      (handleGatewayEvent st (.errored err)).1).2.1.isSome = true :=
  ⟨rfl, rfl, rfl, rfl, rfl, rfl, rfl, rfl⟩

/-- C9 counterexample: on a live handle the quit-time stop sends the
kill signal but does not release the handle, contrary to the claim that
stop itself releases it. -/
theorem claim9_counterexample :
    (stopGateway (SupState.mk (some ()) "tok" "sd" "cp")).2 = true ∧
    (stopGateway (SupState.mk (some ()) "tok" "sd" "cp")).1.gatewayProcess
      = some () := by
  decide

/-- C9 amended: stop sends a termination signal exactly when a handle is
live and makes no state change (in particular it is idempotent when
Idle); the handle itself is cleared by the exit or error handler of the
child, so it is cleared there and not by stop. -/
theorem claim9_stop_amended (st : SupState) (code : Option Int)
    (signal : Option String) (err : String) :
    stopGateway st = (st, st.gatewayProcess.isSome) ∧
    (handleGatewayEvent st (.exited code signal)).1.gatewayProcess = none ∧
    (handleGatewayEvent st (.errored err)).1.gatewayProcess = none := by
  refine ⟨?_, rfl, rfl⟩
  obtain ⟨p, tok, sd, cp⟩ := st
  cases p <;> rfl

/-- C1 counterexample: a persisted token that is non-empty after
trimming but carries surrounding whitespace is NOT reused unchanged: the
bootstrap stores and returns its trimmed form (and does not take the
fresh token either). -/
theorem claim1_counterexample :
    (ensureGatewayConfig "sd" (some (.valid ⟨some " abc ", none⟩)) "f0").token
      ≠ " abc " ∧
    (ensureGatewayConfig "sd" (some (.valid ⟨some " abc ", none⟩)) "f0").token
      = "abc" ∧
    (ensureGatewayConfig "sd" (some (.valid ⟨some " abc ", none⟩)) "f0").token
      ≠ "f0" := by
  decide

/-- C1 amended: for a persisted token that is a string and non-empty
after trimming, the bootstrap reuses its trimmed form and never
generates a new token (so the token is reused unchanged whenever it is
already trimmed); and for every initial file state, running the
bootstrap twice yields the same token and port both times. -/
theorem claim1_bootstrap_reuse_idempotent (stateDir t : String)
    (portF : Option Nat) (file : Option FileContent) (e : List Nat) (f2 : String)
    (ht : jsTrim t ≠ "") (hlen : e.length = 24) (hb : ∀ b ∈ e, b < 256) :
    (ensureGatewayConfig stateDir (some (.valid ⟨some t, portF⟩))
        (generateToken e)).token = jsTrim t ∧
    (jsTrim t = t →
      (ensureGatewayConfig stateDir (some (.valid ⟨some t, portF⟩))
        (generateToken e)).token = t) ∧
    (ensureGatewayConfig stateDir (some (configToFile
        (ensureGatewayConfig stateDir file (generateToken e)).written)) f2).token
      = (ensureGatewayConfig stateDir file (generateToken e)).token ∧
    (ensureGatewayConfig stateDir (some (configToFile
        (ensureGatewayConfig stateDir file (generateToken e)).written)) f2).written.port
      = (ensureGatewayConfig stateDir file (generateToken e)).written.port := by
  have hre : (ensureGatewayConfig stateDir (some (.valid ⟨some t, portF⟩))
      (generateToken e)).token = jsTrim t := by
    show (if extractExistingToken (some (.valid ⟨some t, portF⟩)) ≠ ""
        then extractExistingToken (some (.valid ⟨some t, portF⟩))
        else generateToken e) = jsTrim t
    have hx : extractExistingToken (some (.valid ⟨some t, portF⟩)) = jsTrim t := by
      show (if jsTrim t ≠ "" then jsTrim t else "") = jsTrim t
      rw [if_pos ht]
    rw [hx, if_pos ht]
  refine ⟨hre, fun heq => by rw [hre, heq], ?_, rfl⟩
  have htok : (ensureGatewayConfig stateDir file (generateToken e)).token
      = (if extractExistingToken file ≠ "" then extractExistingToken file
         else generateToken e) := rfl
  have hfix : jsTrim (ensureGatewayConfig stateDir file (generateToken e)).token
      = (ensureGatewayConfig stateDir file (generateToken e)).token := by
    rw [htok]
    by_cases hx : extractExistingToken file = ""
    · rw [if_neg (by simp [hx])]
      exact jsTrim_generateToken e hb
    · rw [if_pos hx]
      exact jsTrim_extractExistingToken file
  have hne2 : (ensureGatewayConfig stateDir file (generateToken e)).token ≠ "" := by
    rw [htok]
    by_cases hx : extractExistingToken file = ""
    · rw [if_neg (by simp [hx])]
      exact generateToken_ne_empty e hlen
    · rw [if_pos hx]
      exact hx
  show (if extractExistingToken (some (configToFile
      (ensureGatewayConfig stateDir file (generateToken e)).written)) ≠ ""
      then extractExistingToken (some (configToFile
        (ensureGatewayConfig stateDir file (generateToken e)).written))
      else f2)
    = (ensureGatewayConfig stateDir file (generateToken e)).token
  have hx2 : extractExistingToken (some (configToFile
      (ensureGatewayConfig stateDir file (generateToken e)).written))
      = (ensureGatewayConfig stateDir file (generateToken e)).token := by
    show (if jsTrim (ensureGatewayConfig stateDir file (generateToken e)).token ≠ ""
        then jsTrim (ensureGatewayConfig stateDir file (generateToken e)).token
        else "")
      = (ensureGatewayConfig stateDir file (generateToken e)).token
    rw [hfix, if_pos hne2]
  rw [hx2, if_pos hne2]

/-- C1 witness: concrete instantiation of the amended claim. -/
theorem claim1_witness :
    (jsTrim "abc" ≠ "") ∧ (List.replicate 24 7).length = 24 ∧
    (∀ b ∈ List.replicate 24 7, b < 256) ∧
    ((ensureGatewayConfig "sd" (some (.valid ⟨some "abc", none⟩))
        (generateToken (List.replicate 24 7))).token = jsTrim "abc" ∧
      (jsTrim "abc" = "abc" →
        (ensureGatewayConfig "sd" (some (.valid ⟨some "abc", none⟩))
          (generateToken (List.replicate 24 7))).token = "abc") ∧
      (ensureGatewayConfig "sd" (some (configToFile
          (ensureGatewayConfig "sd" none (generateToken (List.replicate 24 7))).written)) "f2").token
        = (ensureGatewayConfig "sd" none (generateToken (List.replicate 24 7))).token ∧
      (ensureGatewayConfig "sd" (some (configToFile
          (ensureGatewayConfig "sd" none (generateToken (List.replicate 24 7))).written)) "f2").written.port
        = (ensureGatewayConfig "sd" none (generateToken (List.replicate 24 7))).written.port) :=
  ⟨by decide, by decide, by decide,
    claim1_bootstrap_reuse_idempotent "sd" "abc" none none (List.replicate 24 7) "f2"
      (by decide) (by decide) (by decide)⟩

/-- C3: starting from a fresh retry state, 21 consecutive load failures
on a loopback URL schedule exactly 20 retries, each with the fixed
500 ms delay, and no retry on the 21st failure; for any number of
failures at most 20 retries are ever scheduled. -/
theorem claim3_retry_bound (code : Int) (desc url : String) (mw : Bool)
    (cu : String) (hne : url ≠ "")
    (hpre : jsStartsWith url loopbackPrefix = true) :
    (simFailLoads code desc url 21 ⟨0, mw, cu⟩).2
      = List.replicate 20 (some 500) ++ [none] ∧
    ((simFailLoads code desc url 21 ⟨0, mw, cu⟩).2.filterMap id).length = 20 ∧
    (didFailLoad (simFailLoads code desc url 20 ⟨0, mw, cu⟩).1
      code desc url).retryDelay = none ∧
    (∀ n : Nat,
      ((simFailLoads code desc url n ⟨0, mw, cu⟩).2.filterMap id).length ≤ 20) := by
  have hspec := simFailLoads_spec code desc url hne hpre
  have hle : (UiState.mk 0 mw cu).uiRetries ≤ 20 := by
    show (0 : Nat) ≤ 20
    omega
  have h21 := (hspec 21 ⟨0, mw, cu⟩ hle).2
  dsimp at h21
  have hfirst : (simFailLoads code desc url 21 ⟨0, mw, cu⟩).2
      = List.replicate 20 (some 500) ++ [none] := by
    rw [h21]
    exact rfl
  refine ⟨hfirst, ?_, ?_, ?_⟩
  · rw [hfirst]
    decide
  · have h20 := (hspec 20 ⟨0, mw, cu⟩ hle).1
    dsimp at h20
    have h20' : (simFailLoads code desc url 20 ⟨0, mw, cu⟩).1.uiRetries = 20 := by
      omega
    rw [didFailLoad_exhausted _ code desc url (by rw [h20']; omega)]
  · intro n
    have hn := (hspec n ⟨0, mw, cu⟩ hle).2
    dsimp at hn
    rw [hn, List.filterMap_append, filterMap_id_replicate_some,
      filterMap_id_replicate_none, List.append_nil, List.length_replicate]
    omega

/-- C3 witness: concrete loopback URL driving 21 failures. -/
theorem claim3_witness :
    ("http://127.0.0.1:18789/?token=ab" ≠ "") ∧
    jsStartsWith "http://127.0.0.1:18789/?token=ab" loopbackPrefix = true ∧
    ((simFailLoads (-102) "ERR_CONNECTION_REFUSED" "http://127.0.0.1:18789/?token=ab"
        21 ⟨0, true, "u"⟩).2 = List.replicate 20 (some 500) ++ [none] ∧
      ((simFailLoads (-102) "ERR_CONNECTION_REFUSED" "http://127.0.0.1:18789/?token=ab"
        21 ⟨0, true, "u"⟩).2.filterMap id).length = 20 ∧
      (didFailLoad (simFailLoads (-102) "ERR_CONNECTION_REFUSED"
          "http://127.0.0.1:18789/?token=ab" 20 ⟨0, true, "u"⟩).1
        (-102) "ERR_CONNECTION_REFUSED" "http://127.0.0.1:18789/?token=ab").retryDelay
        = none ∧
      (∀ n : Nat,
        ((simFailLoads (-102) "ERR_CONNECTION_REFUSED" "http://127.0.0.1:18789/?token=ab"
          n ⟨0, true, "u"⟩).2.filterMap id).length ≤ 20)) :=
  ⟨by decide, by decide,
    claim3_retry_bound (-102) "ERR_CONNECTION_REFUSED" "http://127.0.0.1:18789/?token=ab"
      true "u" (by decide) (by decide)⟩

/-- C7: after one bootstrap-and-start cycle the control-UI URL is
exactly the loopback base with the single URL-encoded token query
parameter (the encoding is the identity on an all-hex token), and the
same token appears in the written config file, in the `--token` spawn
argument, and in the child environment variable. -/
theorem claim7_url_token_consistency (stateDir execPath rootDir : String)
    (file : Option FileContent) (fresh : String) :
    (bootCycle stateDir execPath rootDir file fresh).url
      = "http://127.0.0.1:18789/?token="
        ++ formUrlEncode (bootCycle stateDir execPath rootDir file fresh).ensure.token ∧
    ((∀ c ∈ (bootCycle stateDir execPath rootDir file fresh).ensure.token.data,
        isLowerHexDigit c = true) →
      (bootCycle stateDir execPath rootDir file fresh).url
        = "http://127.0.0.1:18789/?token="
          ++ (bootCycle stateDir execPath rootDir file fresh).ensure.token) ∧
    (bootCycle stateDir execPath rootDir file fresh).ensure.written.token
      = (bootCycle stateDir execPath rootDir file fresh).ensure.token ∧
    (bootCycle stateDir execPath rootDir file fresh).spawn.map SpawnSpec.args
      = some [rootDir ++ "/openclaw.mjs", "gateway", "--allow-unconfigured",
        "--auth", "token", "--token",
        (bootCycle stateDir execPath rootDir file fresh).ensure.token,
        "--port", "18789", "--bind", "loopback"] ∧
    (bootCycle stateDir execPath rootDir file fresh).spawn.map
        (fun sp => sp.env.lookup "OPENCLAW_GATEWAY_TOKEN")
      = some (some (bootCycle stateDir execPath rootDir file fresh).ensure.token) := by
  refine ⟨rfl, ?_, rfl, rfl, rfl⟩
  intro h
  have henc := formUrlEncode_hex
    (bootCycle stateDir execPath rootDir file fresh).ensure.token h
  rw [← henc]
  exact rfl

/-- C7 witness: a concrete cycle from an empty state directory. -/
theorem claim7_witness :
    (bootCycle "sd" "exe" "root" none "ab12").url
      = "http://127.0.0.1:18789/?token="
        ++ formUrlEncode (bootCycle "sd" "exe" "root" none "ab12").ensure.token ∧
    ((∀ c ∈ (bootCycle "sd" "exe" "root" none "ab12").ensure.token.data,
        isLowerHexDigit c = true) →
      (bootCycle "sd" "exe" "root" none "ab12").url
        = "http://127.0.0.1:18789/?token="
          ++ (bootCycle "sd" "exe" "root" none "ab12").ensure.token) ∧
    (bootCycle "sd" "exe" "root" none "ab12").ensure.written.token
      = (bootCycle "sd" "exe" "root" none "ab12").ensure.token ∧
    (bootCycle "sd" "exe" "root" none "ab12").spawn.map SpawnSpec.args
      = some ["root" ++ "/openclaw.mjs", "gateway", "--allow-unconfigured",
        "--auth", "token", "--token",
        (bootCycle "sd" "exe" "root" none "ab12").ensure.token,
        "--port", "18789", "--bind", "loopback"] ∧
    (bootCycle "sd" "exe" "root" none "ab12").spawn.map
        (fun sp => sp.env.lookup "OPENCLAW_GATEWAY_TOKEN")
      = some (some (bootCycle "sd" "exe" "root" none "ab12").ensure.token) :=
  claim7_url_token_consistency "sd" "exe" "root" none "ab12"

/-- C10: the gateway port is the constant 18789 everywhere: the
bootstrap never reads a port from an existing config file, so even for a
file recording a different port the rewritten config, the spawn
arguments and the control-UI URL all use 18789. -/
theorem claim10_port_constant (stateDir execPath rootDir fresh : String)
    (tokenF : Option String) (portF : Nat) :
    gatewayPort = 18789 ∧
    (∀ file : Option FileContent,
      (ensureGatewayConfig stateDir file fresh).written.port = 18789) ∧
    (bootCycle stateDir execPath rootDir
      (some (.valid ⟨tokenF, some portF⟩)) fresh).ensure.written.port = 18789 ∧
    (bootCycle stateDir execPath rootDir
        (some (.valid ⟨tokenF, some portF⟩)) fresh).spawn.map SpawnSpec.args
      = some [rootDir ++ "/openclaw.mjs", "gateway", "--allow-unconfigured",
        "--auth", "token", "--token",
        (bootCycle stateDir execPath rootDir
          (some (.valid ⟨tokenF, some portF⟩)) fresh).ensure.token,
        "--port", "18789", "--bind", "loopback"] ∧
    (bootCycle stateDir execPath rootDir
        (some (.valid ⟨tokenF, some portF⟩)) fresh).url
      = "http://127.0.0.1:18789/?token="
        ++ formUrlEncode (bootCycle stateDir execPath rootDir
            (some (.valid ⟨tokenF, some portF⟩)) fresh).ensure.token :=
  ⟨rfl, fun _ => rfl, rfl, rfl, rfl⟩

end Moltbot
